/-
Verification of the melbudget CSV normalization core.

Shallow embedding of:
  - src/models.py            (TransactionType, Transaction, TransactionSummary)
  - src/utils/csv_processor.py (CSVProcessor.clean_decimal, process_csv,
                                load_all_transactions)
  - src/app.py               (the classification block of the process_csv route,
                              and the TransactionSummary construction in home)

Modelling conventions:
  - Python Decimal values are modelled by `PyDecimal`: a finite value is an
    exact rational, plus NaN and signed infinity, which Python's
    `Decimal(str)` constructor can also produce.  Decimal context rounding
    (28 significant digits) is not modelled; sums and quotients are exact
    rationals.  Rational values are built with `Rat.divInt` and the helper
    operations below so that closed evaluations reduce inside the kernel.
  - A pandas cell is `Option String`: `none` models a NaN cell (empty field).
    pandas dtype inference (numeric columns parsed to int64 or float64 before
    `str()` is applied) is not modelled; cells keep their source text.
  - Text processing is implemented over `List Char`, mirroring Python string
    semantics (strip, split, upper, substring membership) character by
    character.
  - `datetime` values are modelled by `Date` (year, month, day); time of day
    is dropped.  `datetime.now()` is an explicit `now : Date` parameter.
  - `dateutil.parser.parse` is an explicit parameter
    `du : String -> Option Date` (`none` models the parser raising), since the
    library is external to the repository.
  - A raised exception caught by a `try/except` is modelled by `none` or by
    the except branch's value, following the source's handlers.
-/
import Mathlib

/-- Calendar date, modelling a Python `datetime` with the time of day dropped. -/
structure Date where
  year : Nat
  month : Nat
  day : Nat
deriving DecidableEq, Repr

/-- The closed enumeration from src/models.py (`class TransactionType`). -/
inductive TransactionType
  | DEBIT_CARD
  | ACH_CREDIT
  | ACH_DEBIT
  | FEE_TRANSACTION
  | CHECK_DEPOSIT
  | MISC_DEBIT
  | DEPOSIT
deriving DecidableEq, Repr

/-- A Python `decimal.Decimal` value: an exact rational, NaN, or a signed
infinity.  `Decimal(str)` can produce all three. -/
inductive PyDecimal
  | fin (q : ℚ)
  | nan
  | inf (neg : Bool)
deriving DecidableEq, Repr

/-- Result of a Python ordering comparison `amount > 0` / `amount < 0` on a
Decimal.  `invalid` models the `InvalidOperation` exception that an ordering
comparison against a Decimal NaN raises under the default context. -/
inductive CmpResult
  | lt
  | eq
  | gt
  | invalid
deriving DecidableEq, Repr

/-- Comparison of a `PyDecimal` against zero, as Python's `>` / `<` behave. -/
def PyDecimal.cmpZero : PyDecimal → CmpResult
  | PyDecimal.fin q =>
      if q < 0 then CmpResult.lt else if q = 0 then CmpResult.eq else CmpResult.gt
  | PyDecimal.nan => CmpResult.invalid
  | PyDecimal.inf neg => if neg then CmpResult.lt else CmpResult.gt

/-- The canonical transaction record from src/models.py (`class Transaction`). -/
structure Transaction where
  details : String
  posting_date : Date
  description : String
  amount : PyDecimal
  transaction_type : TransactionType
  balance : PyDecimal
  check_number : Option String
deriving DecidableEq, Repr

/-- The summary record from src/models.py (`class TransactionSummary`). -/
structure TransactionSummary where
  total_transactions : Nat
  total_spent : PyDecimal
  total_received : PyDecimal
  average_transaction : PyDecimal
  date_range : String
deriving DecidableEq, Repr

/-- Rational negation through `Rat.divInt` (kernel-reducible). -/
def qneg (a : ℚ) : ℚ := Rat.divInt (-a.num) a.den

/-- Rational addition through `Rat.divInt` (kernel-reducible). -/
def qadd (a b : ℚ) : ℚ :=
  Rat.divInt (a.num * b.den + b.num * a.den) (a.den * b.den)

/-- Rational division through `Rat.divInt` (kernel-reducible). -/
def qdiv (a b : ℚ) : ℚ := Rat.divInt (a.num * b.den) (a.den * b.num)

/-- Multiplication of a rational by `10 ^ n` through `Rat.divInt`. -/
def qscaleUp (a : ℚ) (n : Nat) : ℚ := Rat.divInt (a.num * 10 ^ n) a.den

/-- Division of a rational by `10 ^ n` through `Rat.divInt`. -/
def qscaleDown (a : ℚ) (n : Nat) : ℚ := Rat.divInt a.num (a.den * 10 ^ n)

/-- Split a character list at every occurrence of `sep`, as Python's
`str.split(sep)` behaves (the empty string yields one empty group). -/
def splitOnChar (sep : Char) : List Char → List (List Char)
  | [] => [[]]
  | c :: rest =>
      let r := splitOnChar sep rest
      if c == sep then [] :: r
      else
        match r with
        | [] => [[c]]
        | g :: gs => (c :: g) :: gs

/-- Strip leading and trailing whitespace, as Python's `str.strip()`. -/
def charTrim (cs : List Char) : List Char :=
  ((cs.dropWhile Char.isWhitespace).reverse.dropWhile Char.isWhitespace).reverse

/-- True when `p` is a character-list prefix of `s`. -/
def startsWithChars : List Char → List Char → Bool
  | [], _ => true
  | _ :: _, [] => false
  | a :: ps, b :: ss => a == b && startsWithChars ps ss

/-- True when `pat` occurs as a contiguous sublist of `s`. -/
def hasSubChars (pat : List Char) : List Char → Bool
  | [] => pat.isEmpty
  | c :: rest => startsWithChars pat (c :: rest) || hasSubChars pat rest

/-- Python's `pat in s` substring test. -/
def containsSub (s pat : String) : Bool :=
  hasSubChars pat.data s.data

/-- Python's `str.upper()`. -/
def pyUpper (s : String) : String :=
  String.mk (s.data.map Char.toUpper)

/-- Value of a list of decimal digit characters. -/
def digitsVal (cs : List Char) : Nat :=
  cs.foldl (fun a c => a * 10 + (c.toNat - 48)) 0

/-- Mantissa of a Python decimal numeric string: digits with an optional
decimal point (`"12"`, `"12."`, `".5"`, `"12.34"`). -/
def parseMantissa (cs : List Char) : Option ℚ :=
  match splitOnChar '.' cs with
  | [a] =>
      if !a.isEmpty && a.all Char.isDigit then
        some (Rat.divInt (digitsVal a) 1)
      else none
  | [a, b] =>
      if a.all Char.isDigit && b.all Char.isDigit && !(a.isEmpty && b.isEmpty) then
        some (Rat.divInt (digitsVal a * 10 ^ b.length + digitsVal b) (10 ^ b.length))
      else none
  | _ => none

/-- Exponent part of a decimal numeric string: optional sign, then digits.
Returns (negated?, magnitude). -/
def parseExpPart (cs : List Char) : Option (Bool × Nat) :=
  match cs with
  | '+' :: rest =>
      if !rest.isEmpty && rest.all Char.isDigit then some (false, digitsVal rest) else none
  | '-' :: rest =>
      if !rest.isEmpty && rest.all Char.isDigit then some (true, digitsVal rest) else none
  | _ =>
      if !cs.isEmpty && cs.all Char.isDigit then some (false, digitsVal cs) else none

/-- Finite part of the Python decimal numeric string grammar (input already
lower-cased, sign already consumed): mantissa with optional `e` exponent. -/
def parseFiniteDec (cs : List Char) : Option ℚ :=
  match splitOnChar 'e' cs with
  | [m] => parseMantissa m
  | [m, e] =>
      match parseMantissa m, parseExpPart e with
      | some q, some (negE, n) =>
          some (if negE then qscaleDown q n else qscaleUp q n)
      | _, _ => none
  | _ => none

/-- Unsigned part of Python's `Decimal(str)` grammar: `inf`/`infinity`,
`nan`/`snan` with optional diagnostic digits, or a finite numeric string
(all case-insensitive). -/
def parseUnsignedDec (cs : List Char) (neg : Bool) : Option PyDecimal :=
  let low := cs.map Char.toLower
  if low == "inf".data || low == "infinity".data then some (PyDecimal.inf neg)
  else if startsWithChars "nan".data low && (low.drop 3).all Char.isDigit then
    some PyDecimal.nan
  else if startsWithChars "snan".data low && (low.drop 4).all Char.isDigit then
    some PyDecimal.nan
  else (parseFiniteDec low).map (fun q => PyDecimal.fin (if neg then qneg q else q))

/-- Python's `Decimal(str)` constructor: underscores are removed throughout,
leading/trailing whitespace is stripped, then the decimal numeric string
grammar applies.  `none` models the `InvalidOperation` exception. -/
def parseDecimalString (s : String) : Option PyDecimal :=
  match charTrim (s.data.filter (fun c => c != '_')) with
  | '+' :: rest => parseUnsignedDec rest false
  | '-' :: rest => parseUnsignedDec rest true
  | cs => parseUnsignedDec cs false

/-- The string pipeline of `CSVProcessor.clean_decimal`
(src/utils/csv_processor.py lines 41-46): strip every `$` and `,`
(`str.replace` with an empty replacement), strip whitespace, and turn a
fully parenthesized value into a `-`-prefixed one (`cleaned[1:-1]`). -/
def cleanChars (cs : List Char) : List Char :=
  let cleaned := charTrim (cs.filter (fun c => c != '$' && c != ','))
  if startsWithChars ['('] cleaned && startsWithChars [')'] cleaned.reverse then
    '-' :: (cleaned.drop 1).dropLast
  else cleaned

/-- `cleanChars` packaged on strings. -/
def cleanString (s : String) : String :=
  String.mk (cleanChars s.data)

/-- `CSVProcessor.clean_decimal` (src/utils/csv_processor.py lines 34-55).
The argument is the raw pandas cell; `none` is a NaN cell (`pd.isna`).
The `except (InvalidOperation, TypeError)` handler returns `Decimal('0')`. -/
def cleanDecimal (value : Option String) : PyDecimal :=
  match value with
  | none => PyDecimal.fin 0
  | some s =>
      match parseDecimalString (cleanString s) with
      | some d => d
      | none => PyDecimal.fin 0

/-- Gregorian leap-year test, as `datetime` validates days. -/
def isLeapYear (y : Nat) : Bool :=
  (y % 4 == 0 && y % 100 != 0) || y % 400 == 0

/-- Number of days in a month, as `datetime` validates days. -/
def daysInMonth (y m : Nat) : Nat :=
  if m = 2 then (if isLeapYear y then 29 else 28)
  else if m = 4 || m = 6 || m = 9 || m = 11 then 30
  else 31

/-- `datetime.strptime(s, "%m/%d/%Y")`: month and day of one or two digits,
year of exactly four digits, separated by `/`, with calendar validation.
`none` models the `ValueError` the source catches. -/
def strptimeMDY (s : String) : Option Date :=
  match splitOnChar '/' s.data with
  | [mc, dc, yc] =>
      if mc.all Char.isDigit && dc.all Char.isDigit && yc.all Char.isDigit &&
          decide (1 ≤ mc.length) && decide (mc.length ≤ 2) &&
          decide (1 ≤ dc.length) && decide (dc.length ≤ 2) &&
          decide (yc.length = 4) then
        let m := digitsVal mc
        let d := digitsVal dc
        let y := digitsVal yc
        if decide (1 ≤ m) && decide (m ≤ 12) && decide (1 ≤ d) &&
            decide (d ≤ daysInMonth y m) && decide (1 ≤ y) then
          some ⟨y, m, d⟩
        else none
      else none
  | _ => none

/-- The nested date parsing of src/utils/csv_processor.py lines 82-93: strict
`%m/%d/%Y` first, then the permissive `dateutil` fallback `du`, and when both
fail the except branch sets `posting_date = datetime.now()`, here `now`. -/
def parseDate (du : String → Option Date) (now : Date) (s : String) : Date :=
  match strptimeMDY s with
  | some d => d
  | none =>
      match du s with
      | some d => d
      | none => now

/-- The transaction-type mapping of src/utils/csv_processor.py lines 100-117:
the sign comparison `amount > 0` selects the branch, then substring tests on
the uppercased `Details` and `Type` fields run in source order. -/
def classify (c : CmpResult) (details typeStr : String) : TransactionType :=
  if c = CmpResult.gt then
    if containsSub details "CREDIT" || containsSub typeStr "ACH_CREDIT" then
      TransactionType.ACH_CREDIT
    else if containsSub details "DSLIP" || containsSub typeStr "CHECK" then
      TransactionType.CHECK_DEPOSIT
    else if containsSub typeStr "DEPOSIT" then TransactionType.DEPOSIT
    else TransactionType.DEPOSIT
  else
    if containsSub typeStr "FEE" then TransactionType.FEE_TRANSACTION
    else if containsSub typeStr "ACH_DEBIT" then TransactionType.ACH_DEBIT
    else if containsSub typeStr "DEBIT_CARD" then TransactionType.DEBIT_CARD
    else TransactionType.MISC_DEBIT

/-- The classification chain of the `process_csv` route in src/app.py lines
246-257: keyword tests only, no sign comparison. -/
def appClassify (details typeStr : String) : TransactionType :=
  if containsSub details "CREDIT" || containsSub typeStr "ACH_CREDIT" then
    TransactionType.ACH_CREDIT
  else if containsSub details "DSLIP" || containsSub typeStr "CHECK" then
    TransactionType.CHECK_DEPOSIT
  else if containsSub typeStr "FEE" then TransactionType.FEE_TRANSACTION
  else if containsSub typeStr "ACH_DEBIT" then TransactionType.ACH_DEBIT
  else if containsSub typeStr "DEBIT_CARD" then TransactionType.DEBIT_CARD
  else TransactionType.MISC_DEBIT

/-- `str(cell)` applied to a pandas cell: a NaN cell prints as `"nan"`. -/
def strOfCell (c : Option String) : String :=
  match c with
  | some s => s
  | none => "nan"

/-- A parsed pandas data frame: header row plus cell rows.  A cell is
`none` when the field is empty (pandas NaN). -/
structure Frame where
  headers : List String
  rows : List (List (Option String))
deriving Repr

/-- A CSV file as `pd.read_csv` sees it: either reading raises (missing or
malformed file), or it yields a frame. -/
inductive CsvFile
  | unreadable
  | content (frame : Frame)

/-- `row[name]` on a pandas row: the cell under the first matching header. -/
def getCell (headers : List String) (row : List (Option String)) (name : String) :
    Option String :=
  match headers.findIdx? (fun h => h == name) with
  | some i => row.getD i none
  | none => none

/-- Assembly of one row's transaction, from the row body of
src/utils/csv_processor.py lines 78-130.  The single sign comparison
`amount > 0` both guards against the Decimal-NaN `InvalidOperation` raise
(caught by the per-row handler, dropping the row) and selects the
classification branch. -/
def mkRowTx (amount balance : PyDecimal) (pdate : Date) (details typeStr descr : String)
    (check : Option String) : Option Transaction :=
  if amount.cmpZero = CmpResult.invalid then none
  else
    some
      { details := details
        posting_date := pdate
        description := descr
        amount := amount
        transaction_type := classify amount.cmpZero details typeStr
        balance := balance
        check_number := check }

/-- One iteration of the row loop of `CSVProcessor.process_csv`
(src/utils/csv_processor.py lines 77-135): field extraction per header name,
`clean_decimal` on amount and balance, flexible date parsing, uppercasing of
`Details`/`Type` guarded by `pd.notna`, classification, and construction.
`none` models the `except` branch that skips the row. -/
def parseRow (du : String → Option Date) (now : Date)
    (headers : List String) (row : List (Option String)) : Option Transaction :=
  mkRowTx
    (cleanDecimal (getCell headers row "Amount"))
    (cleanDecimal (getCell headers row "Balance"))
    (parseDate du now (strOfCell (getCell headers row "Posting Date")))
    (match getCell headers row "Details" with
      | some s => pyUpper s
      | none => "")
    (match getCell headers row "Type" with
      | some s => pyUpper s
      | none => "")
    (String.mk (charTrim (strOfCell (getCell headers row "Description")).data))
    (getCell headers row "Check or Slip #")

/-- The seven required headers of src/utils/csv_processor.py line 66. -/
def expectedColumns : List String :=
  ["Details", "Posting Date", "Description", "Amount", "Type", "Balance", "Check or Slip #"]

/-- The column check of src/utils/csv_processor.py line 67:
`all(col in df.columns for col in expected_columns)`. -/
def hasAllColumns (headers : List String) : Bool :=
  expectedColumns.all (fun c => headers.contains c)

/-- `CSVProcessor.process_csv` (src/utils/csv_processor.py lines 57-146):
an unreadable file or a missing required column yields `[]`; otherwise the
row loop collects the successfully parsed rows in order. -/
def processCsv (du : String → Option Date) (now : Date) (file : CsvFile) :
    List Transaction :=
  match file with
  | CsvFile.unreadable => []
  | CsvFile.content frame =>
      if hasAllColumns frame.headers then
        frame.rows.filterMap (parseRow du now frame.headers)
      else []

/-- `CSVProcessor.load_all_transactions` (src/utils/csv_processor.py lines
25-32): the cache is consulted by emptiness alone; only an empty cache is
repopulated from the current files, and the returned mapping is the cache
itself.  `files` lists the current files in `get_processed_files` order. -/
def loadAllTransactions (du : String → Option Date) (now : Date)
    (files : List (String × CsvFile))
    (cache : List (String × List Transaction)) :
    List (String × List Transaction) :=
  if cache.isEmpty then files.map (fun p => (p.1, processCsv du now p.2))
  else cache

/-- Finite rational value of a `PyDecimal`, when it has one. -/
def ratOfDec : PyDecimal → Option ℚ
  | PyDecimal.fin q => some q
  | _ => none

/-- The amounts of a transaction list as exact rationals; `none` when some
amount is NaN or infinite, where the Python summary code would raise on the
NaN ordering comparison or leave the fragment modelled here. -/
def finAmounts : List Transaction → Option (List ℚ)
  | [] => some []
  | t :: ts =>
      match ratOfDec t.amount, finAmounts ts with
      | some q, some qs => some (q :: qs)
      | _, _ => none

/-- Chronological order on `Date`, as Python compares `datetime` values. -/
def dateLe (a b : Date) : Bool :=
  decide (a.year < b.year ∨ (a.year = b.year ∧
    (a.month < b.month ∨ (a.month = b.month ∧ a.day ≤ b.day))))

/-- Two-digit zero padding, as `strftime` formats months and days. -/
def pad2 (n : Nat) : String :=
  if n < 10 then "0" ++ Nat.repr n else Nat.repr n

/-- Four-digit zero padding, as `strftime` formats years. -/
def pad4 (n : Nat) : String :=
  if n < 10 then "000" ++ Nat.repr n
  else if n < 100 then "00" ++ Nat.repr n
  else if n < 1000 then "0" ++ Nat.repr n
  else Nat.repr n

/-- `strftime("%Y-%m-%d")` on a date. -/
def formatDate (d : Date) : String :=
  pad4 d.year ++ "-" ++ pad2 d.month ++ "-" ++ pad2 d.day

/-- Python `min` over a nonempty date list (first minimum kept). -/
def minDateFrom (d : Date) (l : List Date) : Date :=
  l.foldl (fun a b => if dateLe a b then a else b) d

/-- Python `max` over a nonempty date list (first maximum kept). -/
def maxDateFrom (d : Date) (l : List Date) : Date :=
  l.foldl (fun a b => if dateLe b a then a else b) d

/-- The `TransactionSummary` construction of the `home` route, src/app.py
lines 75-84 (the same formulas appear in the `process_csv` route, lines
281-290, behind an emptiness guard): count, sum of negative amounts, sum of
positive amounts, average guarded by truthiness, and the date range with its
empty-collection sentinel.  `none` models amounts outside the finite
fragment (see `finAmounts`). -/
def summarize (transactions : List Transaction) : Option TransactionSummary :=
  match finAmounts transactions with
  | none => none
  | some amts =>
      some
        { total_transactions := transactions.length
          total_spent :=
            PyDecimal.fin ((amts.filter (fun q => decide (q < 0))).foldl qadd 0)
          total_received :=
            PyDecimal.fin ((amts.filter (fun q => decide (0 < q))).foldl qadd 0)
          average_transaction :=
            PyDecimal.fin
              (if transactions.length = 0 then 0
               else qdiv (amts.foldl qadd 0) (transactions.length : ℚ))
          date_range :=
            match transactions.map (fun t => t.posting_date) with
            | [] => "No date range available"
            | d :: ds =>
                formatDate (minDateFrom d ds) ++ " to " ++ formatDate (maxDateFrom d ds) }

/-- Concrete stand-in for the `dateutil` fallback: a parser that recognizes
nothing, used where a claim needs one explicit fallback behavior. -/
def du0 : String → Option Date := fun _ => none

/-- Concrete `datetime.now()` date for evaluations. -/
def now0 : Date := ⟨2024, 1, 1⟩

/-- The canonical Chase header row, equal to the required column set. -/
def fullHeaders : List String := expectedColumns

/-- Header row with the `Balance` column missing. -/
def headersNoBalance : List String :=
  ["Details", "Posting Date", "Description", "Amount", "Type", "Check or Slip #"]

/-- A well-formed debit row: `-4.50` on a `DEBIT_CARD` type code. -/
def rowGood : List (Option String) :=
  [some "DEBIT", some "01/02/2024", some " Coffee ", some "-4.50",
   some "DEBIT_CARD", some "100.00", none]

/-- A row whose `Amount` cell reads `NaN`: `clean_decimal` yields a Decimal
NaN and the sign comparison raises, so the row loop skips it. -/
def rowNanAmt : List (Option String) :=
  [some "DEBIT", some "01/02/2024", some "Glitch", some "NaN",
   some "MISC", some "100.00", none]

/-- A row whose `Posting Date` both date parsers reject. -/
def rowBadDate : List (Option String) :=
  [some "DEBIT", some "notadate", some "Stuff", some "5.00",
   some "MISC", some "10.00", none]

/-- A row with `Type == "ACH_CREDIT"` and a negative amount. -/
def rowAchNeg : List (Option String) :=
  [some "DEBIT", some "01/02/2024", some "Payment", some "-5.00",
   some "ACH_CREDIT", some "100.00", none]

/-- A row with `Type == "ACH_CREDIT"` and a positive amount. -/
def rowAchPos : List (Option String) :=
  [some "DEBIT", some "01/02/2024", some "Payment", some "5.00",
   some "ACH_CREDIT", some "100.00", none]

/-- A row whose check cell is the literal string `","`. -/
def rowCommaCheck : List (Option String) :=
  [some "DEBIT", some "01/02/2024", some "Check", some "-20.00",
   some "CHECK", some "100.00", some ","]

/-- A row whose check cell is the string `"0042"`. -/
def rowCheck0042 : List (Option String) :=
  [some "DEBIT", some "01/02/2024", some "Check", some "-20.00",
   some "CHECK", some "100.00", some "0042"]

/-- File with the full header set and the single well-formed row. -/
def fileGood : CsvFile := CsvFile.content ⟨fullHeaders, [rowGood]⟩

/-- File whose single row has the unparseable posting date. -/
def fileBadDate : CsvFile := CsvFile.content ⟨fullHeaders, [rowBadDate]⟩

/-- File whose single row is the negative `ACH_CREDIT` row. -/
def fileAchNeg : CsvFile := CsvFile.content ⟨fullHeaders, [rowAchNeg]⟩

/-- File whose single row carries the `","` check cell. -/
def fileCommaCheck : CsvFile := CsvFile.content ⟨fullHeaders, [rowCommaCheck]⟩

/-- Version one of a changing file: amount `5.00`. -/
def fileV1 : CsvFile :=
  CsvFile.content ⟨fullHeaders,
    [[some "CREDIT", some "01/02/2024", some "Pay", some "5.00",
      some "ACH_CREDIT", some "105.00", none]]⟩

/-- Version two of the same file after it changed on disk: amount `7.00`. -/
def fileV2 : CsvFile :=
  CsvFile.content ⟨fullHeaders,
    [[some "CREDIT", some "01/02/2024", some "Pay", some "7.00",
      some "ACH_CREDIT", some "107.00", none]]⟩

/-- Placeholder transaction for total projections out of option values. -/
def defaultTx : Transaction :=
  { details := ""
    posting_date := ⟨0, 0, 0⟩
    description := ""
    amount := PyDecimal.fin 0
    transaction_type := TransactionType.MISC_DEBIT
    balance := PyDecimal.fin 0
    check_number := none }

/-- The transaction parsed from `rowGood`. -/
def txGood : Transaction :=
  (parseRow du0 now0 fullHeaders rowGood).getD defaultTx

/-- The transaction parsed from `rowAchPos`. -/
def txAchPos : Transaction :=
  (parseRow du0 now0 fullHeaders rowAchPos).getD defaultTx

/-- The transaction parsed from `rowCheck0042`. -/
def txCheck0042 : Transaction :=
  (parseRow du0 now0 fullHeaders rowCheck0042).getD defaultTx

/-- The cache state after one `load_all_transactions` call against `fileV1`. -/
def cacheAfterV1 : List (String × List Transaction) :=
  loadAllTransactions du0 now0 [("a.CSV", fileV1)] []

theorem qadd_eq_add (a b : ℚ) : qadd a b = a + b := by
  have h1 : ((a.den : ℤ)) ≠ 0 := by exact_mod_cast a.den_ne_zero
  have h2 : ((b.den : ℤ)) ≠ 0 := by exact_mod_cast b.den_ne_zero
  unfold qadd
  rw [← @Rat.divInt_add_divInt a.num b.num a.den b.den h1 h2, Rat.num_divInt_den,
    Rat.num_divInt_den]

theorem qdiv_eq_div (a b : ℚ) : qdiv a b = a / b := (Rat.div_def' a b).symm

theorem foldl_qadd_eq_sum (l : List ℚ) : ∀ a : ℚ, l.foldl qadd a = a + l.sum := by
  induction l with
  | nil => intro a; simp
  | cons q qs ih =>
      intro a
      rw [List.foldl_cons, List.sum_cons, ih, qadd_eq_add]
      ring

theorem mkRowTx_fields (amount balance : PyDecimal) (pdate : Date)
    (details typeStr descr : String) (check : Option String) (t : Transaction)
    (h : mkRowTx amount balance pdate details typeStr descr check = some t) :
    t.amount = amount ∧
      t.transaction_type = classify amount.cmpZero details typeStr ∧
      t.check_number = check ∧ t.posting_date = pdate := by
  unfold mkRowTx at h
  split at h
  · exact absurd h (by simp)
  · cases Option.some.inj h
    exact ⟨rfl, rfl, rfl, rfl⟩

theorem classify_mem_credit (details typeStr : String) :
    classify CmpResult.gt details typeStr = TransactionType.ACH_CREDIT ∨
    classify CmpResult.gt details typeStr = TransactionType.CHECK_DEPOSIT ∨
    classify CmpResult.gt details typeStr = TransactionType.DEPOSIT := by
  unfold classify
  split_ifs <;> simp_all

theorem classify_mem_debit (c : CmpResult) (details typeStr : String)
    (hc : c ≠ CmpResult.gt) :
    classify c details typeStr = TransactionType.FEE_TRANSACTION ∨
    classify c details typeStr = TransactionType.ACH_DEBIT ∨
    classify c details typeStr = TransactionType.DEBIT_CARD ∨
    classify c details typeStr = TransactionType.MISC_DEBIT := by
  unfold classify
  rw [if_neg hc]
  split_ifs <;> simp

theorem classify_with_ach_credit_code (c : CmpResult) (details : String) :
    classify c details "ACH_CREDIT" =
      (if c = CmpResult.gt then TransactionType.ACH_CREDIT
       else TransactionType.MISC_DEBIT) := by
  unfold classify
  by_cases hc : c = CmpResult.gt
  · simp [hc, (by decide : containsSub "ACH_CREDIT" "ACH_CREDIT" = true)]
  · simp [hc, (by decide : containsSub "ACH_CREDIT" "FEE" = false),
      (by decide : containsSub "ACH_CREDIT" "ACH_DEBIT" = false),
      (by decide : containsSub "ACH_CREDIT" "DEBIT_CARD" = false)]

/-- Claim C4: `clean_decimal` returns `1234.56` for `"$1,234.56"`, `-12` for
`"(12.00)"`, and exact zero for the empty string, for a missing/NaN cell, and
for every input whose cleaned form the Decimal constructor rejects.  The
function is total (it never raises): the `except` handler absorbs every
parse failure into `Decimal('0')`. -/
theorem c4_clean_decimal_contract :
    cleanDecimal (some "$1,234.56") = PyDecimal.fin (1234.56 : ℚ)
    ∧ cleanDecimal (some "(12.00)") = PyDecimal.fin (-12 : ℚ)
    ∧ cleanDecimal (some "") = PyDecimal.fin 0
    ∧ cleanDecimal none = PyDecimal.fin 0
    ∧ ∀ s : String, parseDecimalString (cleanString s) = none →
        cleanDecimal (some s) = PyDecimal.fin 0 := by
  refine ⟨?_, by decide, by decide, rfl, ?_⟩
  · have h : cleanDecimal (some "$1,234.56") = PyDecimal.fin (Rat.divInt 123456 100) := by
      decide
    rw [h]
    congr 1
    rw [Rat.divInt_eq_div]
    norm_num
  · intro s h
    show (match parseDecimalString (cleanString s) with
      | some d => d
      | none => PyDecimal.fin 0) = PyDecimal.fin 0
    rw [h]

/-- Witness for C4 at the concrete unparseable input `"abc"`. -/
theorem c4_clean_decimal_witness :
    parseDecimalString (cleanString "abc") = none
    ∧ cleanDecimal (some "abc") = PyDecimal.fin 0 :=
  ⟨by decide, c4_clean_decimal_contract.2.2.2.2 "abc" (by decide)⟩

/-- Claim C5: over the finite-amount fragment, `summarize` reports the
length as `total_transactions`, the sum of the negative amounts as
`total_spent`, the sum of the positive amounts as `total_received`, and the
sum over the count as the average (zero for an empty collection, with no
division by zero since rational division by zero is zero on the claim side
and the source guards by truthiness); the empty collection yields the
zero-valued summary with the sentinel date range. -/
theorem c5_summarize_contract :
    (∀ (T : List Transaction) (amts : List ℚ), finAmounts T = some amts →
      ∃ s, summarize T = some s ∧
        s.total_transactions = T.length ∧
        s.total_spent = PyDecimal.fin ((amts.filter (fun q => decide (q < 0))).sum) ∧
        s.total_received = PyDecimal.fin ((amts.filter (fun q => decide (0 < q))).sum) ∧
        s.average_transaction = PyDecimal.fin (amts.sum / (T.length : ℚ)))
    ∧ summarize [] =
        some ⟨0, PyDecimal.fin 0, PyDecimal.fin 0, PyDecimal.fin 0,
          "No date range available"⟩ := by
  constructor
  · intro T amts h
    have hs : summarize T = some
        { total_transactions := T.length
          total_spent :=
            PyDecimal.fin ((amts.filter (fun q => decide (q < 0))).foldl qadd 0)
          total_received :=
            PyDecimal.fin ((amts.filter (fun q => decide (0 < q))).foldl qadd 0)
          average_transaction :=
            PyDecimal.fin
              (if T.length = 0 then 0 else qdiv (amts.foldl qadd 0) (T.length : ℚ))
          date_range :=
            match T.map (fun t => t.posting_date) with
            | [] => "No date range available"
            | d :: ds =>
                formatDate (minDateFrom d ds) ++ " to " ++ formatDate (maxDateFrom d ds) } := by
      unfold summarize
      rw [h]
    refine ⟨_, hs, rfl, ?_, ?_, ?_⟩
    · show PyDecimal.fin ((amts.filter (fun q => decide (q < 0))).foldl qadd 0)
        = PyDecimal.fin ((amts.filter (fun q => decide (q < 0))).sum)
      rw [foldl_qadd_eq_sum, zero_add]
    · show PyDecimal.fin ((amts.filter (fun q => decide (0 < q))).foldl qadd 0)
        = PyDecimal.fin ((amts.filter (fun q => decide (0 < q))).sum)
      rw [foldl_qadd_eq_sum, zero_add]
    · show PyDecimal.fin
          (if T.length = 0 then 0 else qdiv (amts.foldl qadd 0) (T.length : ℚ))
        = PyDecimal.fin (amts.sum / (T.length : ℚ))
      by_cases hT : T.length = 0
      · have hTnil : T = [] := List.length_eq_zero.mp hT
        subst hTnil
        have h0 : (some [] : Option (List ℚ)) = some amts := h
        have ha : amts = [] := (Option.some.inj h0).symm
        subst ha
        simp
      · rw [if_neg hT, qdiv_eq_div, foldl_qadd_eq_sum, zero_add]
  · rfl

/-- Witness for C5 at the concrete singleton collection `[txGood]`. -/
theorem c5_summarize_witness :
    ∃ s, summarize [txGood] = some s ∧
      s.total_transactions = ([txGood] : List Transaction).length ∧
      s.total_spent =
        PyDecimal.fin (([Rat.divInt (-9) 2].filter (fun q => decide (q < 0))).sum) ∧
      s.total_received =
        PyDecimal.fin (([Rat.divInt (-9) 2].filter (fun q => decide (0 < q))).sum) ∧
      s.average_transaction =
        PyDecimal.fin (([Rat.divInt (-9) 2] : List ℚ).sum /
          (([txGood] : List Transaction).length : ℚ)) :=
  c5_summarize_contract.1 [txGood] [Rat.divInt (-9) 2] (by decide)

/-- Claim C9: `process_csv` is total: an unreadable file and a frame missing
a required column both yield the empty list, a row whose parsing fails
(`parseRow = none`) is omitted without disturbing the remaining rows, and
the output never exceeds the row count. -/
theorem c9_total_and_failure_containment : ∀ (du : String → Option Date) (now : Date),
    processCsv du now CsvFile.unreadable = []
    ∧ (∀ frame : Frame, hasAllColumns frame.headers = false →
        processCsv du now (CsvFile.content frame) = [])
    ∧ (∀ (headers : List String) (pre post : List (List (Option String)))
        (r : List (Option String)), parseRow du now headers r = none →
        processCsv du now (CsvFile.content ⟨headers, pre ++ r :: post⟩) =
          processCsv du now (CsvFile.content ⟨headers, pre ++ post⟩))
    ∧ (∀ frame : Frame,
        (processCsv du now (CsvFile.content frame)).length ≤ frame.rows.length) := by
  intro du now
  refine ⟨rfl, ?_, ?_, ?_⟩
  · intro frame h
    simp [processCsv, h]
  · intro headers pre post r hr
    by_cases hc : hasAllColumns headers
    · simp [processCsv, hc, List.filterMap_append, List.filterMap_cons, hr]
    · simp [processCsv, hc]
  · intro frame
    by_cases hc : hasAllColumns frame.headers
    · simpa [processCsv, hc] using List.length_filterMap_le (parseRow du now frame.headers)
        frame.rows
    · simp [processCsv, hc]

/-- Witness for C9: the NaN-amount row is skipped while the neighboring row
survives, and the unreadable file yields the empty list. -/
theorem c9_containment_witness :
    processCsv du0 now0 (CsvFile.content ⟨fullHeaders, [rowNanAmt, rowGood]⟩)
      = processCsv du0 now0 (CsvFile.content ⟨fullHeaders, [rowGood]⟩)
    ∧ processCsv du0 now0 CsvFile.unreadable = [] :=
  ⟨(c9_total_and_failure_containment du0 now0).2.2.1 fullHeaders [] [rowGood] rowNanAmt
      (by decide),
    (c9_total_and_failure_containment du0 now0).1⟩

/-- Claim C10: every transaction emitted by `process_csv` respects the
sign-type partition: a positive amount yields `ACH_CREDIT`, `CHECK_DEPOSIT`
or `DEPOSIT`; a zero or negative amount yields `FEE_TRANSACTION`,
`ACH_DEBIT`, `DEBIT_CARD` or `MISC_DEBIT`. -/
theorem c10_sign_type_partition :
    ∀ (du : String → Option Date) (now : Date) (file : CsvFile) (t : Transaction),
      t ∈ processCsv du now file →
      (t.amount.cmpZero = CmpResult.gt →
        t.transaction_type = TransactionType.ACH_CREDIT ∨
        t.transaction_type = TransactionType.CHECK_DEPOSIT ∨
        t.transaction_type = TransactionType.DEPOSIT)
      ∧ (t.amount.cmpZero ≠ CmpResult.gt →
        t.transaction_type = TransactionType.FEE_TRANSACTION ∨
        t.transaction_type = TransactionType.ACH_DEBIT ∨
        t.transaction_type = TransactionType.DEBIT_CARD ∨
        t.transaction_type = TransactionType.MISC_DEBIT) := by
  intro du now file t ht
  match file with
  | CsvFile.unreadable => exact absurd ht (by simp [processCsv])
  | CsvFile.content frame =>
      rw [show processCsv du now (CsvFile.content frame)
          = if hasAllColumns frame.headers then
              frame.rows.filterMap (parseRow du now frame.headers)
            else [] from rfl] at ht
      by_cases hc : hasAllColumns frame.headers
      · rw [if_pos hc] at ht
        obtain ⟨r, hrmem, hr⟩ := List.mem_filterMap.mp ht
        unfold parseRow at hr
        obtain ⟨ha, htt, -, -⟩ := mkRowTx_fields _ _ _ _ _ _ _ _ hr
        constructor
        · intro hg
          rw [ha] at hg
          rw [htt, hg]
          exact classify_mem_credit _ _
        · intro hg
          rw [ha] at hg
          rw [htt]
          exact classify_mem_debit _ _ _ hg
      · rw [if_neg hc] at ht
        exact absurd ht (by simp)

/-- Witness for C10 at the concrete debit row `rowGood` (amount `-4.50`). -/
theorem c10_sign_type_partition_witness :
    txGood.transaction_type = TransactionType.FEE_TRANSACTION ∨
    txGood.transaction_type = TransactionType.ACH_DEBIT ∨
    txGood.transaction_type = TransactionType.DEBIT_CARD ∨
    txGood.transaction_type = TransactionType.MISC_DEBIT :=
  (c10_sign_type_partition du0 now0 fileGood txGood (by decide)).2 (by decide)

/-- Claim C1 (code bug): when both the strict parse and the `dateutil`
fallback fail on the `Posting Date` (here the input `"notadate"`), the row is
NOT dropped: `process_csv` emits it with `posting_date = datetime.now()`,
fabricating the current date, contrary to the spec's drop-and-log policy. -/
theorem c1_fallback_fabricates_current_date :
    ∀ (du : String → Option Date) (now : Date), du "notadate" = none →
      (processCsv du now fileBadDate).map (fun t => t.posting_date) = [now] := by
  intro du now h
  have hd : parseDate du now "notadate" = now := by
    unfold parseDate
    rw [show strptimeMDY "notadate" = none from by decide, h]
  have hrow : parseRow du now fullHeaders rowBadDate = some
      { details := "DEBIT"
        posting_date := now
        description := "Stuff"
        amount := PyDecimal.fin (Rat.divInt 500 100)
        transaction_type := TransactionType.DEPOSIT
        balance := PyDecimal.fin (Rat.divInt 1000 100)
        check_number := none } := by
    unfold parseRow
    rw [show strOfCell (getCell fullHeaders rowBadDate "Posting Date") = "notadate"
      from by decide, hd]
    rfl
  have hp : processCsv du now fileBadDate
      = List.filterMap (parseRow du now fullHeaders) [rowBadDate] := rfl
  rw [hp]
  simp [List.filterMap_cons, hrow]

/-- Witness for C1 at a concrete `now` and the empty fallback parser. -/
theorem c1_fallback_witness :
    (processCsv du0 ⟨2024, 5, 6⟩ fileBadDate).map (fun t => t.posting_date)
      = [⟨2024, 5, 6⟩] :=
  c1_fallback_fabricates_current_date du0 ⟨2024, 5, 6⟩ rfl

/-- Claim C2 counterexample: the row with `Type == "ACH_CREDIT"` and amount
`-5.00` is emitted as `MISC_DEBIT`, not `ACH_CREDIT` — the sign branch of
`process_csv` takes precedence over the explicit type code. -/
theorem c2_counterexample_negative_ach_credit :
    getCell fullHeaders rowAchNeg "Type" = some "ACH_CREDIT"
    ∧ (processCsv du0 now0 fileAchNeg).map (fun t => t.transaction_type)
        = [TransactionType.MISC_DEBIT]
    ∧ (processCsv du0 now0 fileAchNeg).map (fun t => t.transaction_type)
        ≠ [TransactionType.ACH_CREDIT] :=
  ⟨by decide, by decide, by decide⟩

/-- Claim C2 as amended: in `CSVProcessor.process_csv` the sign of the
amount takes precedence; a row whose `Type` equals `"ACH_CREDIT"` is emitted
as `ACH_CREDIT` exactly when its amount is positive (regardless of
`Details`), and as `MISC_DEBIT` otherwise.  In the `process_csv` route of
src/app.py, which checks keywords before any sign test, the `ACH_CREDIT`
type code wins unconditionally. -/
theorem c2_amended_sign_precedes_keyword :
    (∀ (du : String → Option Date) (now : Date) (headers : List String)
        (row : List (Option String)) (t : Transaction),
      getCell headers row "Type" = some "ACH_CREDIT" →
      parseRow du now headers row = some t →
      t.transaction_type =
        (if t.amount.cmpZero = CmpResult.gt then TransactionType.ACH_CREDIT
         else TransactionType.MISC_DEBIT))
    ∧ ∀ details : String, appClassify details "ACH_CREDIT" = TransactionType.ACH_CREDIT := by
  constructor
  · intro du now headers row t hty hr
    unfold parseRow at hr
    rw [hty] at hr
    have hr' : mkRowTx
        (cleanDecimal (getCell headers row "Amount"))
        (cleanDecimal (getCell headers row "Balance"))
        (parseDate du now (strOfCell (getCell headers row "Posting Date")))
        (match getCell headers row "Details" with
          | some s => pyUpper s
          | none => "")
        "ACH_CREDIT"
        (String.mk (charTrim (strOfCell (getCell headers row "Description")).data))
        (getCell headers row "Check or Slip #") = some t := hr
    obtain ⟨ha, htt, -, -⟩ := mkRowTx_fields _ _ _ _ _ _ _ _ hr'
    rw [htt, classify_with_ach_credit_code, ha]
  · intro details
    unfold appClassify
    simp [(by decide : containsSub "ACH_CREDIT" "ACH_CREDIT" = true)]

/-- Witness for the amended C2 at the positive-amount row `rowAchPos`. -/
theorem c2_amended_witness :
    txAchPos.transaction_type =
      (if txAchPos.amount.cmpZero = CmpResult.gt then TransactionType.ACH_CREDIT
       else TransactionType.MISC_DEBIT) :=
  c2_amended_sign_precedes_keyword.1 du0 now0 fullHeaders rowAchPos txAchPos
    (by decide) (by decide)

/-- Claim C3 counterexample: a file missing the `Balance` column and a
well-formed file with zero rows produce the same value — the empty list —
so the caller cannot distinguish a schema mismatch from an empty result,
and no error object is surfaced. -/
theorem c3_counterexample_indistinguishable :
    processCsv du0 now0 (CsvFile.content ⟨headersNoBalance, [rowGood]⟩)
      = processCsv du0 now0 (CsvFile.content ⟨fullHeaders, []⟩)
    ∧ processCsv du0 now0 (CsvFile.content ⟨headersNoBalance, [rowGood]⟩) = [] :=
  ⟨by decide, by decide⟩

/-- Claim C3 as amended: a file missing any required header column yields
the empty list with no partial output, and a well-formed file whose row set
is empty yields the same empty list; the two outcomes coincide. -/
theorem c3_amended_both_collapse_to_empty :
    (∀ (du : String → Option Date) (now : Date) (frame : Frame),
      hasAllColumns frame.headers = false →
      processCsv du now (CsvFile.content frame) = [])
    ∧ (∀ (du : String → Option Date) (now : Date),
      processCsv du now (CsvFile.content ⟨fullHeaders, []⟩) = []) := by
  constructor
  · intro du now frame h
    simp [processCsv, h]
  · intro du now
    rfl

/-- Witness for the amended C3 at a concrete frame missing `Balance`. -/
theorem c3_amended_witness :
    processCsv du0 now0 (CsvFile.content ⟨headersNoBalance, [rowAchPos]⟩) = [] :=
  c3_amended_both_collapse_to_empty.1 du0 now0 ⟨headersNoBalance, [rowAchPos]⟩ (by decide)

/-- Claim C6 counterexample: a check cell holding the literal string `","`
is NOT treated as absent; `process_csv` preserves it verbatim as the
check_number. -/
theorem c6_counterexample_comma_preserved :
    (processCsv du0 now0 fileCommaCheck).map (fun t => t.check_number) = [some ","]
    ∧ (processCsv du0 now0 fileCommaCheck).map (fun t => t.check_number)
        ≠ [(none : Option String)] :=
  ⟨by decide, by decide⟩

/-- Claim C6 as amended: the check_number of every emitted transaction is
exactly the raw `Check or Slip #` cell — the string form is preserved
verbatim (leading zeros such as `"0042"` survive) and only a NaN/empty cell
becomes `None`; the strings `","` and `",,"` are preserved, not absent. -/
theorem c6_amended_check_number_verbatim :
    ∀ (du : String → Option Date) (now : Date) (headers : List String)
      (row : List (Option String)) (t : Transaction),
      parseRow du now headers row = some t →
      t.check_number = getCell headers row "Check or Slip #" := by
  intro du now headers row t hr
  unfold parseRow at hr
  exact (mkRowTx_fields _ _ _ _ _ _ _ _ hr).2.2.1

/-- Witness for the amended C6 at the concrete `"0042"` check cell. -/
theorem c6_amended_witness :
    getCell fullHeaders rowCheck0042 "Check or Slip #" = some "0042"
    ∧ txCheck0042.check_number = getCell fullHeaders rowCheck0042 "Check or Slip #" :=
  ⟨by decide,
    c6_amended_check_number_verbatim du0 now0 fullHeaders rowCheck0042 txCheck0042
      (by decide)⟩

/-- Claim C7 (code bug): `load_all_transactions` consults the cache by
emptiness alone; after the underlying file changes (new contents, new
mtime), the call still returns the stale cached list parsed from the old
contents instead of re-parsing. -/
theorem c7_stale_cache_returned :
    loadAllTransactions du0 now0 [("a.CSV", fileV2)] cacheAfterV1 = cacheAfterV1
    ∧ cacheAfterV1 = [("a.CSV", processCsv du0 now0 fileV1)]
    ∧ cacheAfterV1 ≠ [("a.CSV", processCsv du0 now0 fileV2)] :=
  ⟨by decide, by decide, by decide⟩
